import Mathlib

/-!
Verification of the workflow-orchestration core of the temporal-ocr
repository. The definitions below are a shallow embedding of the Python
source: JSON values and `json.loads` model Python's `json` module as used
by the activities, the summarization/validation activities are translated
from `src/gemini_activities.py`, `src/app/activities/azure_activities.py`
and `src/app/services/azure_service.py`, the workflows from
`src/workflows.py`, `src/app/workflows/workflows.py` and
`src/app/workflows/ai_example_workflows.py`, and the Document Intelligence
confidence aggregation from
`src/app/activities/document_intelligence_activities.py`.
-/

/-- A JSON value as produced by Python's `json.loads`. Numbers are kept as
their source lexeme: none of the code under verification ever inspects a
parsed number, so the int/float distinction and float formatting are
abstracted away. Objects become Python dicts; the member list is kept in
insertion order with unique keys (duplicate keys overwrite, as in Python). -/
inductive JsonValue where
  | null : JsonValue
  | bool (b : Bool) : JsonValue
  | num (lexeme : String) : JsonValue
  | str (s : String) : JsonValue
  | arr (elements : List JsonValue) : JsonValue
  | obj (members : List (String × JsonValue)) : JsonValue

/-- Python dict lookup. The parser below keeps keys unique, so first match
equals Python's lookup. -/
def dict_lookup {β : Type} : List (String × β) → String → Option β
  | [], _ => none
  | (k, v) :: rest, key => if k = key then some v else dict_lookup rest key

/-- Python dict assignment `d[k] = v`: overwrite in place if the key exists
(keeping its position), append otherwise. -/
def dict_insert {β : Type} : List (String × β) → String → β → List (String × β)
  | [], key, v => [(key, v)]
  | (k, w) :: rest, key, v =>
    if k = key then (k, v) :: rest else (k, w) :: dict_insert rest key v

/-- Python `d.get(key, default)`. -/
def dict_getd {β : Type} (members : List (String × β)) (key : String) (default : β) : β :=
  (dict_lookup members key).getD default

/-- The whitespace characters skipped by Python's JSON decoder. -/
def isJsonWs (c : Char) : Bool :=
  c = ' ' || c = '\t' || c = '\n' || c = '\r'

/-- Drop leading JSON whitespace. -/
def skipWs : List Char → List Char
  | [] => []
  | c :: cs => if isJsonWs c then skipWs cs else c :: cs

/-- Value of a hex digit, if the character is one. -/
def hexVal (c : Char) : Option Nat :=
  if '0' ≤ c ∧ c ≤ '9' then some (c.toNat - '0'.toNat)
  else if 'a' ≤ c ∧ c ≤ 'f' then some (c.toNat - 'a'.toNat + 10)
  else if 'A' ≤ c ∧ c ≤ 'F' then some (c.toNat - 'A'.toNat + 10)
  else none

/-- Body of a JSON string after the opening quote: consume characters and
escape sequences until the closing quote, rejecting raw control characters
as Python's strict decoder does. Surrogate-pair recombination for
consecutive `\uXXXX` escapes is not modelled. -/
def parseStringBody : List Char → List Char → Option (String × List Char)
  | [], _ => none
  | c :: rest, acc =>
    if c = '"' then some (String.mk acc.reverse, rest)
    else if c = '\\' then
      match rest with
      | [] => none
      | e :: rest2 =>
        if e = '"' then parseStringBody rest2 ('"' :: acc)
        else if e = '\\' then parseStringBody rest2 ('\\' :: acc)
        else if e = '/' then parseStringBody rest2 ('/' :: acc)
        else if e = 'b' then parseStringBody rest2 (Char.ofNat 8 :: acc)
        else if e = 'f' then parseStringBody rest2 (Char.ofNat 12 :: acc)
        else if e = 'n' then parseStringBody rest2 ('\n' :: acc)
        else if e = 'r' then parseStringBody rest2 ('\r' :: acc)
        else if e = 't' then parseStringBody rest2 ('\t' :: acc)
        else if e = 'u' then
          match rest2 with
          | h1 :: h2 :: h3 :: h4 :: rest3 =>
            match hexVal h1, hexVal h2, hexVal h3, hexVal h4 with
            | some a, some b, some c1, some d =>
              parseStringBody rest3 (Char.ofNat (((a * 16 + b) * 16 + c1) * 16 + d) :: acc)
            | _, _, _, _ => none
          | _ => none
        else none
    else if c.toNat < 32 then none
    else parseStringBody rest (c :: acc)

/-- Longest run of decimal digits at the front of the input. -/
def takeDigits : List Char → List Char × List Char
  | [] => ([], [])
  | c :: rest =>
    if c.isDigit then
      match takeDigits rest with
      | (ds, r) => (c :: ds, r)
    else ([], c :: rest)

/-- Fraction part `.[0-9]+` of a JSON number, if present at the front. -/
def numberFracPart (cs : List Char) : List Char × List Char :=
  match cs with
  | '.' :: rest =>
    match takeDigits rest with
    | ([], _) => ([], cs)
    | (ds, r) => ('.' :: ds, r)
  | _ => ([], cs)

/-- Exponent part `[eE][+-]?[0-9]+` of a JSON number, if present at the front. -/
def numberExpPart (cs : List Char) : List Char × List Char :=
  match cs with
  | e :: rest =>
    if e = 'e' ∨ e = 'E' then
      match rest with
      | s :: rest2 =>
        if s = '+' ∨ s = '-' then
          match takeDigits rest2 with
          | ([], _) => ([], cs)
          | (ds, r) => (e :: s :: ds, r)
        else
          match takeDigits rest with
          | ([], _) => ([], cs)
          | (ds, r) => (e :: ds, r)
      | [] => ([], cs)
    else ([], cs)
  | [] => ([], cs)

/-- Integer part of a JSON number together with its sign: `-?(0|[1-9][0-9]*)`. -/
def numberIntPart (cs : List Char) : Option (List Char × List Char) :=
  match cs with
  | '-' :: rest =>
    match numberIntPart rest with
    | some (ds, r) => some ('-' :: ds, r)
    | none => none
  | '0' :: rest => some (['0'], rest)
  | c :: rest =>
    if c.isDigit then
      match takeDigits rest with
      | (ds, r) => some (c :: ds, r)
    else none
  | [] => none

/-- A JSON number lexeme at the front of the input, following the grammar
used by Python's `json` scanner. Returns the lexeme and the rest. -/
def parseNumber (cs : List Char) : Option (String × List Char) :=
  match numberIntPart cs with
  | none => none
  | some (ip, r1) =>
    match numberFracPart r1 with
    | (fp, r2) =>
      match numberExpPart r2 with
      | (ep, r3) => some (String.mk (ip ++ fp ++ ep), r3)

/-- Mode of the fuelled JSON parser: a value, the items of an array after
the opening bracket, or the members of an object after the opening brace.
A single recursive function (rather than mutual ones) keeps the recursion
structural on the fuel, so concrete parses reduce in the kernel. -/
inductive ParseMode where
  | val : ParseMode
  | arrItems (acc : List JsonValue) : ParseMode
  | objItems (acc : List (String × JsonValue)) : ParseMode

/-- Fuelled JSON parser; the fuel only bounds nesting-driven recursion and
every recursive call follows the consumption of at least one character, so
any fuel of at least twice the input length is sufficient. Mirrors Python's
decoder: `NaN`, `Infinity` and `-Infinity` are accepted, objects require
double-quoted keys, and trailing commas are rejected. -/
def parseRun : Nat → ParseMode → List Char → Option (JsonValue × List Char)
  | 0, _, _ => none
  | fuel + 1, .val, cs =>
    match skipWs cs with
    | 'n' :: 'u' :: 'l' :: 'l' :: rest => some (.null, rest)
    | 't' :: 'r' :: 'u' :: 'e' :: rest => some (.bool true, rest)
    | 'f' :: 'a' :: 'l' :: 's' :: 'e' :: rest => some (.bool false, rest)
    | 'N' :: 'a' :: 'N' :: rest => some (.num "NaN", rest)
    | 'I' :: 'n' :: 'f' :: 'i' :: 'n' :: 'i' :: 't' :: 'y' :: rest =>
      some (.num "Infinity", rest)
    | '-' :: 'I' :: 'n' :: 'f' :: 'i' :: 'n' :: 'i' :: 't' :: 'y' :: rest =>
      some (.num "-Infinity", rest)
    | '"' :: rest =>
      match parseStringBody rest [] with
      | some (s, r) => some (.str s, r)
      | none => none
    | '[' :: rest =>
      (match skipWs rest with
       | ']' :: r2 => some (.arr [], r2)
       | _ => parseRun fuel (.arrItems []) rest)
    | '{' :: rest =>
      (match skipWs rest with
       | '}' :: r2 => some (.obj [], r2)
       | _ => parseRun fuel (.objItems []) rest)
    | c :: rest =>
      if c = '-' ∨ c.isDigit then
        match parseNumber (c :: rest) with
        | some (lex, r) => some (.num lex, r)
        | none => none
      else none
    | [] => none
  | fuel + 1, .arrItems acc, cs =>
    match parseRun fuel .val cs with
    | none => none
    | some (v, r1) =>
      match skipWs r1 with
      | ',' :: r2 => parseRun fuel (.arrItems (acc ++ [v])) r2
      | ']' :: r2 => some (.arr (acc ++ [v]), r2)
      | _ => none
  | fuel + 1, .objItems acc, cs =>
    match skipWs cs with
    | '"' :: rest =>
      match parseStringBody rest [] with
      | none => none
      | some (k, r1) =>
        match skipWs r1 with
        | ':' :: r2 =>
          match parseRun fuel .val r2 with
          | none => none
          | some (v, r3) =>
            match skipWs r3 with
            | ',' :: r4 => parseRun fuel (.objItems (dict_insert acc k v)) r4
            | '}' :: r4 => some (.obj (dict_insert acc k v), r4)
            | _ => none
        | _ => none
    | _ => none

/-- Python's `json.loads`: parse one JSON document, allowing only
whitespace around it; any other leftover input is an error (`none`). -/
def json_loads (s : String) : Option JsonValue :=
  match parseRun (2 * s.length + 4) .val s.data with
  | some (v, rest) => if skipWs rest = [] then some v else none
  | none => none

/-- The exceptions that can escape the modelled code paths. Only
`AttributeError` (calling `.get` on a non-dict) actually escapes the
summarization / validation parsing code; everything else is caught and
turned into a fallback result. -/
inductive PyErr where
  | attributeError : PyErr
deriving DecidableEq

/-- The backtick character of a Markdown code fence. -/
def fenceChar : Char := Char.ofNat 96

/-- Characters matched by regex `\s` (ASCII range; the rare non-ASCII
Unicode whitespace is not modelled). -/
def isRegexWs (c : Char) : Bool :=
  c = ' ' || c = '\t' || c = '\n' || c = '\r' || c = Char.ofNat 11 || c = Char.ofNat 12

/-- True when the input starts with a three-backtick fence. -/
def startsWithFence (cs : List Char) : Bool :=
  match cs with
  | a :: b :: c :: _ => a = fenceChar && b = fenceChar && c = fenceChar
  | _ => false

/-- True when the input matches `\s*` followed by a closing fence, the part
of the pattern after the captured group. Maximal whitespace munch is
equivalent to the regex here because a backtick is not whitespace. -/
def wsThenFence (cs : List Char) : Bool :=
  startsWithFence (cs.dropWhile isRegexWs)

/-- Non-greedy body scan for the captured group of
`regex (three backticks)(?:json)?\s*({.*?})\s*(three backticks) with DOTALL`:
expand the body one character at a time and stop at the first closing brace
that is followed by `\s*` and a closing fence. Returns the whole group,
braces included, as `re.Match.group(1)` does. -/
def findBodyEnd : List Char → List Char → Option (List Char)
  | [], _ => none
  | c :: rest, acc =>
    if c = '}' && wsThenFence rest then some ('{' :: (acc.reverse ++ ['}']))
    else findBodyEnd rest (c :: acc)

/-- Try to match the fenced-JSON pattern at the very start of the input.
The optional `json` tag and the whitespace run are deterministic: their
backtracking alternatives can never lead to a match, because `json` does
not start with `{` or whitespace and whitespace never starts with `{`. -/
def matchFenceAt (cs : List Char) : Option (List Char) :=
  if startsWithFence cs then
    let afterFence := cs.drop 3
    let afterTag :=
      match afterFence with
      | 'j' :: 's' :: 'o' :: 'n' :: r => r
      | _ => afterFence
    match afterTag.dropWhile isRegexWs with
    | '{' :: body => findBodyEnd body []
    | _ => none
  else none

/-- Leftmost-match search (`re.search`): try the pattern at every start
position from the left. -/
def fencedSearch : List Char → Option (List Char)
  | [] => none
  | c :: rest =>
    match matchFenceAt (c :: rest) with
    | some g => some g
    | none => fencedSearch rest

/-- Stage 2 of the Gemini extraction: search the raw response for a fenced
code block containing a JSON object. -/
def fenced_json_block (raw : String) : Option String :=
  (fencedSearch raw.data).map String.mk

/-- Index of the first occurrence of a character, Python `str.find` (with
`none` for Python's `-1`). -/
def str_find (cs : List Char) (c : Char) : Option Nat :=
  List.findIdx? (fun x => x = c) cs

/-- Index of the last occurrence of a character, Python `str.rfind`. -/
def str_rfind (cs : List Char) (c : Char) : Option Nat :=
  match str_find cs.reverse c with
  | some i => some (cs.length - 1 - i)
  | none => none

/-- Stage 3 of the Gemini extraction: the substring between the first `{`
and the last `}`, both inclusive, provided both exist in that order. -/
def brace_substring (raw : String) : Option String :=
  match str_find raw.data '{', str_rfind raw.data '}' with
  | some s, some e =>
    if s < e then some (String.mk ((raw.data.drop s).take (e + 1 - s))) else none
  | _, _ => none

/-- The staged JSON-string extraction of `GeminiActivitiesImpl.perform_summarization`
(src/gemini_activities.py lines 144-162): whole-text parse first, then the
fenced code block, then the first-brace/last-brace substring. -/
def extract_json_string (raw : String) : Option String :=
  match json_loads raw with
  | some _ => some raw
  | none =>
    match fenced_json_block raw with
    | some g => some g
    | none => brace_substring raw

/-- Python repr of a string: single quotes preferred, double quotes when the
text contains a single quote but no double quote; backslash, the quote
character, and control characters are escaped. -/
def pyReprStr (s : String) : String :=
  let squote : Char := Char.ofNat 39
  let dquote : Char := Char.ofNat 34
  let q : Char := if s.data.contains squote && !(s.data.contains dquote) then dquote else squote
  let hexDigit : Nat → Char := fun n =>
    if n < 10 then Char.ofNat ('0'.toNat + n) else Char.ofNat ('a'.toNat + n - 10)
  let escapeChar : Char → List Char := fun c =>
    if c = '\\' then ['\\', '\\']
    else if c = q then ['\\', q]
    else if c = '\n' then ['\\', 'n']
    else if c = '\r' then ['\\', 'r']
    else if c = '\t' then ['\\', 't']
    else if c.toNat < 32 then ['\\', 'x', hexDigit (c.toNat / 16), hexDigit (c.toNat % 16)]
    else [c]
  String.mk (q :: (s.data.map escapeChar).flatten ++ [q])

/-- Python `", ".join`. -/
def joinCommaSep : List String → String
  | [] => ""
  | [x] => x
  | x :: y :: rest => x ++ ", " ++ joinCommaSep (y :: rest)

/-- Python `str()` of an object loaded from JSON, as used by the
structure-validation fallback `str(summary_json)`. Numeric repr is
abstracted by the source lexeme (float formatting is irrelevant to every
claim and is not modelled). -/
def pyStr : JsonValue → String
  | .null => "None"
  | .bool true => "True"
  | .bool false => "False"
  | .num lexeme => lexeme
  | .str s => pyReprStr s
  | .arr elements => "[" ++ joinCommaSep (elements.attach.map (fun e => pyStr e.1)) ++ "]"
  | .obj members =>
    "\x7b" ++
      joinCommaSep (members.attach.map (fun m => pyReprStr m.1.1 ++ ": " ++ pyStr m.1.2)) ++
      "\x7d"
termination_by v => sizeOf v
decreasing_by
  · have := List.sizeOf_lt_of_mem e.2
    simp only [JsonValue.arr.sizeOf_spec]
    omega
  · have h1 := List.sizeOf_lt_of_mem m.2
    have h2 : sizeOf m.1.2 < sizeOf m.1 := by
      obtain ⟨a, b⟩ := m.1
      simp only [Prod.mk.sizeOf_spec]
      omega
    simp only [JsonValue.obj.sizeOf_spec]
    omega

/-- Fallback result of the `except ValueError` handler of the summarization
activities: `summary` is `str(summary_json)` and keywords are empty. -/
def structure_fallback (summary_json : JsonValue) : JsonValue :=
  .obj [("summary", .str (pyStr summary_json)), ("keywords", .arr [])]

/-- Structure-validation block shared verbatim by
`GeminiActivitiesImpl.perform_summarization` (src/gemini_activities.py
lines 178-215) and `AzureOpenAIActivitiesImpl.perform_azure_summarization`
(src/app/activities/azure_activities.py lines 159-196): accept a dict with
both `summary` and `keywords`; otherwise, when `summary` holds a string
that decodes to such a dict, unwrap it once; otherwise fall back to
`str(summary_json)` via the ValueError handler. On a non-dict the code
calls `.get` on it and the resulting AttributeError escapes every handler. -/
def validate_summary_structure (summary_json : JsonValue) : Except PyErr JsonValue :=
  match summary_json with
  | .obj members =>
    if (dict_lookup members "summary").isSome && (dict_lookup members "keywords").isSome then
      .ok (.obj members)
    else
      match dict_lookup members "summary" with
      | some (.str s) =>
        match json_loads s with
        | some (.obj nested) =>
          if (dict_lookup nested "summary").isSome && (dict_lookup nested "keywords").isSome then
            .ok (.obj nested)
          else .ok (structure_fallback (.obj members))
        | some _ => .ok (structure_fallback (.obj members))
        | none => .ok (structure_fallback (.obj members))
      | _ => .ok (structure_fallback (.obj members))
  | _ => .error .attributeError

/-- Input to the document workflows: a path to the document file. -/
structure DocumentInput where
  file_path : String

/-- Result of an OCR activity. -/
structure OcrActivityResult where
  full_text : String

/-- Result of a summarization activity: the parsed summary dict. -/
structure SummarizationActivityResult where
  summary_json : JsonValue

/-- Final result of the document-processing workflows. -/
structure WorkflowResult where
  ocr_text : String
  summary : JsonValue

/-- The summarization activity of `GeminiActivitiesImpl`
(src/gemini_activities.py lines 109-219). `response_text` is the text the
remote model would answer with (empty when the provider returns an empty
response); the returned Bool records whether the remote provider is
invoked at all. Empty OCR text short-circuits to the canned result, an
empty response falls back to a failure result, and otherwise the staged
extraction, parse and structure validation run; parse failures fall back
to the first 500 characters of the raw response. -/
def perform_summarization (ocr_result : OcrActivityResult) (response_text : String) :
    Bool × Except PyErr SummarizationActivityResult :=
  if ocr_result.full_text = "" then
    (false, .ok ⟨.obj [("summary", .str "No text extracted."), ("keywords", .arr [])]⟩)
  else if response_text = "" then
    (true, .ok ⟨.obj [("summary", .str "Summarization failed."), ("keywords", .arr [])]⟩)
  else
    (true,
      match extract_json_string response_text with
      | none =>
        .ok ⟨.obj [("summary", .str (response_text.take 500)), ("keywords", .arr [])]⟩
      | some json_string =>
        if json_string = "" then
          .ok ⟨.obj [("summary", .str (response_text.take 500)), ("keywords", .arr [])]⟩
        else
          match json_loads json_string with
          | none =>
            .ok ⟨.obj [("summary", .str (response_text.take 500)), ("keywords", .arr [])]⟩
          | some summary_json =>
            match validate_summary_structure summary_json with
            | .ok v => .ok ⟨v⟩
            | .error e => .error e)

/-- The summarization activity of `AzureOpenAIActivitiesImpl`
(src/app/activities/azure_activities.py lines 112-200). Identical to the
Gemini activity except that the response is parsed directly, without the
staged extraction. -/
def perform_azure_summarization (ocr_result : OcrActivityResult) (response_text : String) :
    Bool × Except PyErr SummarizationActivityResult :=
  if ocr_result.full_text = "" then
    (false, .ok ⟨.obj [("summary", .str "No text extracted."), ("keywords", .arr [])]⟩)
  else if response_text = "" then
    (true, .ok ⟨.obj [("summary", .str "Summarization failed."), ("keywords", .arr [])]⟩)
  else
    (true,
      match json_loads response_text with
      | none =>
        .ok ⟨.obj [("summary", .str (response_text.take 500)), ("keywords", .arr [])]⟩
      | some summary_json =>
        match validate_summary_structure summary_json with
        | .ok v => .ok ⟨v⟩
        | .error e => .error e)

/-- The validation step `AzureService.validate_summary`
(src/app/services/azure_service.py lines 160-230). `response_text` models
the provider's answer to the validation prompt; the summary argument only
shapes the prompt. Empty and unparseable responses return the canned
not-accurate dicts; a response that parses to a dict is passed through via
`.get` with defaults; any other parsed value makes `.get` raise
AttributeError, which escapes through the outer handler. -/
def validate_summary (summary : String) (response_text : String) : Except PyErr JsonValue :=
  if response_text = "" then
    .ok (.obj [("is_accurate", .bool false),
               ("suggested_improvements", .arr [.str "Could not validate the summary."]),
               ("improved_summary", .null)])
  else
    match json_loads response_text with
    | none =>
      .ok (.obj [("is_accurate", .bool false),
                 ("suggested_improvements", .arr [.str "Error parsing validation response."]),
                 ("improved_summary", .null)])
    | some (.obj members) =>
      .ok (.obj [("is_accurate", dict_getd members "is_accurate" (.bool false)),
                 ("suggested_improvements", dict_getd members "suggested_improvements" (.arr [])),
                 ("improved_summary", dict_getd members "improved_summary" .null)])
    | some _ => .error .attributeError

/-- A table extracted by Document Intelligence. -/
structure TableData where
  rows : Nat
  columns : Nat
  cells : List (List String)

/-- Result of the Document Intelligence activity. Confidence is modelled
over the rationals; Python's float rounding is not modelled. -/
structure DocumentIntelligenceResult where
  full_text : String
  confidence : ℚ
  pages : Nat
  tables : List TableData
  entities : List (String × String)

/-- A recognized line of an analyzed page: the `appearance.confidence`
attribute when the provider reports one. -/
structure AnalyzedLine where
  appearance_confidence : Option ℚ

/-- An analyzed page: its recognized lines. -/
structure AnalyzedPage where
  lines : List AnalyzedLine

/-- A key-value pair of the analyze result; `none` models a missing
(`None`, falsy) key or value element. -/
structure KeyValuePair where
  key : Option String
  value : Option String

/-- The provider-side analyze result consumed by
`DocumentIntelligenceActivitiesImpl.process_document`. -/
structure AnalyzeResult where
  content : Option String
  pages : List AnalyzedPage
  tables : List TableData
  key_value_pairs : List KeyValuePair

/-- The per-line confidence collection loop of `process_document`
(src/app/activities/document_intelligence_activities.py lines 63-70). -/
def collect_confidences (pages : List AnalyzedPage) : List ℚ :=
  (pages.map (fun page => page.lines.filterMap (fun line => line.appearance_confidence))).flatten

/-- Average confidence: `sum(confidences) / len(confidences) if confidences
else 0.0` (line 72). -/
def average_confidence (confidences : List ℚ) : ℚ :=
  if confidences.isEmpty then 0 else confidences.sum / confidences.length

/-- The result assembly of `DocumentIntelligenceActivitiesImpl.process_document`
(src/app/activities/document_intelligence_activities.py lines 58-106),
taking the remote analyze result as input; file reading and the remote call
are outside the model. `content if content else ""` equals `getD ""`
because the only falsy strings are `None` and the empty string. -/
def process_document (result : AnalyzeResult) : DocumentIntelligenceResult where
  full_text := result.content.getD ""
  confidence := average_confidence (collect_confidences result.pages)
  pages := result.pages.length
  tables := result.tables
  entities := result.key_value_pairs.filterMap (fun kvp =>
    match kvp.key, kvp.value with
    | some k, some v => some (k, v)
    | _, _ => none)

/-- The chained `DocumentProcessingWorkflow.run` of
src/app/workflows/workflows.py lines 17-75, with the two activities as
abstract step functions: Document Intelligence runs first, its `full_text`
is wrapped into an `OcrActivityResult` that becomes the summarization
step's input, and the final result combines the step-1 text with the
step-2 summary. -/
def document_processing_workflow_run
    (processDocument : DocumentInput → DocumentIntelligenceResult)
    (summarize : OcrActivityResult → SummarizationActivityResult)
    (doc_input : DocumentInput) : WorkflowResult :=
  let doc_intelligence_result := processDocument doc_input
  let ocr_result : OcrActivityResult := ⟨doc_intelligence_result.full_text⟩
  let summarization_result := summarize ocr_result
  ⟨ocr_result.full_text, summarization_result.summary_json⟩

/-- The older chained `DocumentProcessingWorkflow.run` of src/workflows.py
lines 16-61: OCR activity, then summarization on the OCR result. -/
def document_processing_workflow_legacy_run
    (performOcr : DocumentInput → OcrActivityResult)
    (summarize : OcrActivityResult → SummarizationActivityResult)
    (doc_input : DocumentInput) : WorkflowResult :=
  let ocr_result := performOcr doc_input
  let summarization_result := summarize ocr_result
  ⟨ocr_result.full_text, summarization_result.summary_json⟩

/-- Response of a generic AI provider activity (src/app/models/ai_models.py). -/
structure AIResponse where
  content : String
  model_used : String
deriving DecidableEq

/-- Final result of the multi-provider workflows. -/
structure MultiAIWorkflowResult where
  results : List (String × AIResponse)
  consensus : String
  analysis : String

/-- The fixed dispatch order of `AIConsensusWorkflow.run`
(src/app/workflows/ai_example_workflows.py lines 25-56): the gemini task
is appended first when requested, then openai, then anthropic. -/
def consensus_tasks (providers : List String) : List String :=
  (if "gemini" ∈ providers then ["gemini"] else []) ++
  (if "openai" ∈ providers then ["openai"] else []) ++
  (if "anthropic" ∈ providers then ["anthropic"] else [])

/-- The `for i, provider in enumerate(input.providers)` loop of lines 62-64:
pair each provider of the input list, in input order, with the response at
the same index of the gathered task outputs; `none` models the IndexError
raised when the input list is longer than the task list. -/
def build_results (responses : List AIResponse) :
    List String → Nat → List (String × AIResponse) → Option (List (String × AIResponse))
  | [], _, results => some results
  | provider :: rest, i, results =>
    match responses.get? i with
    | none => none
    | some response => build_results responses rest (i + 1) (dict_insert results provider response)

/-- One labeled block of the consensus prompt (line 69). -/
def provider_label_chunk (provider : String) (response : AIResponse) : String :=
  "**" ++ provider.toUpper ++ " Response:**\n" ++ response.content ++ "\n\n"

/-- The `consensus_prompt += ...` loop over `results.items()` (lines 67-70);
dict iteration order is insertion order. -/
def consensus_prompt_blocks : List (String × AIResponse) → String
  | [] => ""
  | (provider, response) :: rest =>
    provider_label_chunk provider response ++ consensus_prompt_blocks rest

/-- The full synthesis prompt of `AIConsensusWorkflow.run` (lines 67-70). -/
def consensus_prompt (results : List (String × AIResponse)) : String :=
  "Based on these AI responses, create a consensus summary:\n\n" ++
  consensus_prompt_blocks results ++
  "Create a balanced consensus that incorporates the best insights from all responses."

/-- `AIConsensusWorkflow.run` (src/app/workflows/ai_example_workflows.py
lines 20-83). `respond` gives each provider's activity response and
`synthesize` the consensus activity's response to a prompt; both remote
calls are modelled as functions of their inputs. Tasks are dispatched in
the fixed gemini/openai/anthropic order, responses are zipped by index
against the input providers order, and the synthesis step receives the
labeled prompt built from the results dict. -/
def ai_consensus_run (providers : List String) (respond : String → AIResponse)
    (synthesize : String → AIResponse) : Option MultiAIWorkflowResult :=
  let responses := (consensus_tasks providers).map respond
  match build_results responses providers 0 [] with
  | none => none
  | some results =>
    let consensus_response := synthesize (consensus_prompt results)
    some ⟨results, consensus_response.content,
          "Processed with " ++ toString providers.length ++ " AI providers"⟩

/-- Kinds of attempt outcomes seen by the retry engine: success, or an
error identified by its Python exception type name, which is what the
workflow's `non_retryable_error_types` lists match against. -/
inductive AttemptOutcome where
  | ok : AttemptOutcome
  | err (kind : String) : AttemptOutcome

/-- Terminal outcome of a retried step. -/
inductive RetryOutcome where
  | succeeded : RetryOutcome
  | failedNonRetryable (kind : String) : RetryOutcome
  | retriesExhausted (kind : String) : RetryOutcome

/-- Trace of one retried step execution: how many attempts ran, the backoff
delays waited between consecutive attempts, and the terminal outcome. -/
structure RetryRun where
  attempts : Nat
  delays : List Nat
  outcome : RetryOutcome

/-- A retry policy as configured in the workflows (durations in seconds,
matching the `timedelta` arguments). -/
structure RetryPolicy where
  maximum_attempts : Nat
  initial_interval : Nat
  maximum_interval : Nat
  non_retryable_error_types : List String

/-- The Document Intelligence step policy of
src/app/workflows/workflows.py lines 22-27. -/
def doc_intelligence_retry_policy : RetryPolicy :=
  ⟨3, 5, 30, ["FileNotFoundError", "ValueError"]⟩

/-- The summarization step policy of src/app/workflows/workflows.py
lines 29-34 (identical in src/workflows.py lines 27-32). -/
def summary_retry_policy : RetryPolicy :=
  ⟨3, 15, 120, ["ValueError"]⟩

/-- The OCR step policy of src/workflows.py lines 21-26. -/
def ocr_retry_policy : RetryPolicy :=
  ⟨3, 10, 60, ["FileNotFoundError", "ValueError"]⟩

/-- Modelled from the spec: the backoff schedule `next_delay(attempt,
policy)` of the retry engine (spec 4.2, 4.4). The engine that executes the
activities' retry policies is the durable workflow runtime, which is not
part of src/; the spec requires an exponential or equivalent monotonically
non-decreasing schedule starting at `initial_interval` and bounded above
by `maximum_interval`, here exponential with factor 2 (the runtime's
documented default coefficient). -/
def next_delay (policy : RetryPolicy) (attempt : Nat) : Nat :=
  min (policy.initial_interval * 2 ^ (attempt - 1)) policy.maximum_interval

/-- Modelled from the spec: the retry loop of the workflow runtime
(spec 4.2, 8), starting at the zero-based attempt index `i` with `fuel`
attempts still allowed. Success returns immediately; an error whose kind
is listed in `non_retryable_error_types` fails immediately with no backoff
wait; a retryable error on the last allowed attempt exhausts the retries;
otherwise the engine waits `next_delay` for the just-finished attempt
number and tries again. -/
def run_from (policy : RetryPolicy) (outcomes : Nat → AttemptOutcome) : Nat → Nat → RetryRun
  | _, 0 => ⟨0, [], .retriesExhausted ""⟩
  | i, fuel + 1 =>
    match outcomes i with
    | .ok => ⟨1, [], .succeeded⟩
    | .err kind =>
      if kind ∈ policy.non_retryable_error_types then ⟨1, [], .failedNonRetryable kind⟩
      else if fuel = 0 then ⟨1, [], .retriesExhausted kind⟩
      else
        ⟨(run_from policy outcomes (i + 1) fuel).attempts + 1,
         next_delay policy (i + 1) :: (run_from policy outcomes (i + 1) fuel).delays,
         (run_from policy outcomes (i + 1) fuel).outcome⟩

/-- Modelled from the spec: a full retried execution of one step under a
policy, where `outcomes j` is the outcome of the zero-based attempt `j`. -/
def run_retry (policy : RetryPolicy) (outcomes : Nat → AttemptOutcome) : RetryRun :=
  run_from policy outcomes 0 policy.maximum_attempts

/-- C1: the claim that every provider response text degrades to a fallback
summary result fails on the code. A response that is valid JSON whose top
level is not an object (here the JSON array `[]`) reaches the
structure-validation block, which calls `.get` on the parsed non-dict
value; the resulting AttributeError is caught by neither the
JSONDecodeError nor the ValueError handler, so both summarization
activities raise instead of returning a fallback result. -/
theorem nonobject_response_raises_attribute_error :
    perform_summarization ⟨"doc"⟩ "[]" = (true, .error .attributeError) ∧
    perform_azure_summarization ⟨"doc"⟩ "[]" = (true, .error .attributeError) :=
  ⟨rfl, rfl⟩

/-- C2: on empty extracted text, both summarization activities return the
canned no-content summary and never invoke the remote provider (the first
component `false` records that the provider call is skipped), whatever the
provider would have answered. -/
theorem empty_text_short_circuits_summarization (response_text : String) :
    perform_summarization ⟨""⟩ response_text =
      (false, .ok ⟨.obj [("summary", .str "No text extracted."), ("keywords", .arr [])]⟩) ∧
    perform_azure_summarization ⟨""⟩ response_text =
      (false, .ok ⟨.obj [("summary", .str "No text extracted."), ("keywords", .arr [])]⟩) :=
  ⟨rfl, rfl⟩

/-- C3: the structured-output extraction tries its stages in order (whole
text as JSON, then the fenced code block, then the substring between the
first opening brace and the last closing brace), and on the response
`Here is your result: {"summary": "ok", "keywords": []} Thanks!` the
summarization activity returns exactly the embedded summary object. -/
theorem extraction_stage_order_and_wrapped_scenario :
    (∀ raw : String, extract_json_string raw =
      match json_loads raw with
      | some _ => some raw
      | none =>
        match fenced_json_block raw with
        | some g => some g
        | none => brace_substring raw) ∧
    perform_summarization ⟨"doc"⟩
        "Here is your result: \x7b\"summary\": \"ok\", \"keywords\": []\x7d Thanks!" =
      (true, .ok ⟨.obj [("summary", .str "ok"), ("keywords", .arr [])]⟩) :=
  ⟨fun _ => rfl, rfl⟩

/-- C7: in both chained document-processing workflows each step's output is
the next step's input, and the final result is exactly the first step's
extracted text (unchanged, as `ocr_text`) merged with the last step's
summary output. -/
theorem chain_composition_result
    (processDocument : DocumentInput → DocumentIntelligenceResult)
    (performOcr : DocumentInput → OcrActivityResult)
    (summarize : OcrActivityResult → SummarizationActivityResult)
    (doc_input : DocumentInput) :
    document_processing_workflow_run processDocument summarize doc_input =
      ⟨(processDocument doc_input).full_text,
       (summarize ⟨(processDocument doc_input).full_text⟩).summary_json⟩ ∧
    document_processing_workflow_legacy_run performOcr summarize doc_input =
      ⟨(performOcr doc_input).full_text,
       (summarize (performOcr doc_input)).summary_json⟩ :=
  ⟨rfl, rfl⟩

/-- C8: when the parsed object lacks the required keys but its `summary`
field is a string that itself decodes to an object carrying both expected
keys, the structure validation unwraps it exactly once and returns that
nested object verbatim — in particular it never recurses further, even if
the nested object's own `summary` field is again a JSON-encoded string. -/
theorem nested_summary_unwrapped_once
    (members nested : List (String × JsonValue)) (s : String)
    (hkw : dict_lookup members "keywords" = none)
    (hsum : dict_lookup members "summary" = some (.str s))
    (hparse : json_loads s = some (.obj nested))
    (hnsum : (dict_lookup nested "summary").isSome = true)
    (hnkw : (dict_lookup nested "keywords").isSome = true) :
    validate_summary_structure (.obj members) = .ok (.obj nested) := by
  simp [validate_summary_structure, hkw, hsum, hparse, hnsum, hnkw]

/-- Witness for the once-only unwrap: the outer summary string decodes to
an object whose own `summary` field is still a JSON-encoded string, and
the result keeps that inner encoding untouched. -/
theorem nested_summary_unwrapped_once_witness :
    validate_summary_structure
        (.obj [("summary",
          .str "\x7b\"summary\": \"\x7b\\\"summary\\\": \\\"deep\\\", \\\"keywords\\\": []\x7d\", \"keywords\": []\x7d")]) =
      .ok (.obj [("summary", .str "\x7b\"summary\": \"deep\", \"keywords\": []\x7d"),
                 ("keywords", .arr [])]) :=
  nested_summary_unwrapped_once _ _ _ rfl rfl rfl rfl rfl

/-- C9 (counterexample): the claim that the validation step always returns
an object rather than raising fails on the code: a provider response that
parses to a non-object JSON value (here `[1]`) makes
`validation_json.get(...)` raise AttributeError, which the outer handler
re-raises. -/
theorem validation_nonobject_response_raises :
    validate_summary "a summary" "[1]" = .error .attributeError :=
  rfl

/-- C9 (amended): for every summary and provider response, an empty
response and an unparseable response return the canned not-accurate object
without raising, and a response parsing to a JSON object returns an object
that always carries the `is_accurate`, `suggested_improvements` and
`improved_summary` keys, taking the provider's values with defaults
`false`, the empty list and null — so boolean and list typed whenever the
provider supplies those types or omits the keys. Only a response parsing
to a non-object JSON value raises. -/
theorem validation_result_shape (summary response_text : String) :
    (response_text = "" → validate_summary summary response_text =
      .ok (.obj [("is_accurate", .bool false),
                 ("suggested_improvements", .arr [.str "Could not validate the summary."]),
                 ("improved_summary", .null)])) ∧
    (response_text ≠ "" → json_loads response_text = none →
      validate_summary summary response_text =
        .ok (.obj [("is_accurate", .bool false),
                   ("suggested_improvements", .arr [.str "Error parsing validation response."]),
                   ("improved_summary", .null)])) ∧
    (∀ members, json_loads response_text = some (.obj members) →
      validate_summary summary response_text =
        .ok (.obj [("is_accurate", dict_getd members "is_accurate" (.bool false)),
                   ("suggested_improvements", dict_getd members "suggested_improvements" (.arr [])),
                   ("improved_summary", dict_getd members "improved_summary" .null)])) := by
  refine ⟨fun h => by simp [validate_summary, h], fun h hp => by simp [validate_summary, h, hp],
          fun members h => ?_⟩
  have hne : response_text ≠ "" := by
    intro hr
    rw [hr] at h
    have : (none : Option JsonValue) = some (.obj members) := h
    cases this
  simp [validate_summary, hne, h]

/-- Witness for the amended validation shape at the three branch inputs:
an empty response, a non-JSON response, and an object response carrying a
boolean `is_accurate`. -/
theorem validation_result_shape_witness :
    validate_summary "s" "" =
      .ok (.obj [("is_accurate", .bool false),
                 ("suggested_improvements", .arr [.str "Could not validate the summary."]),
                 ("improved_summary", .null)]) ∧
    validate_summary "s" "not json" =
      .ok (.obj [("is_accurate", .bool false),
                 ("suggested_improvements", .arr [.str "Error parsing validation response."]),
                 ("improved_summary", .null)]) ∧
    validate_summary "s" "\x7b\"is_accurate\": true\x7d" =
      .ok (.obj [("is_accurate", .bool true), ("suggested_improvements", .arr []),
                 ("improved_summary", .null)]) :=
  ⟨(validation_result_shape "s" "").1 rfl,
   (validation_result_shape "s" "not json").2.1 (by decide) rfl,
   (validation_result_shape "s" "\x7b\"is_accurate\": true\x7d").2.2
     [("is_accurate", .bool true)] rfl⟩

/-- A sublist of a three-element list is one of its eight subsequences. -/
theorem sublist_of_three {α : Type} {a b c : α} {l : List α}
    (h : List.Sublist l [a, b, c]) :
    l = [] ∨ l = [a] ∨ l = [b] ∨ l = [c] ∨
    l = [a, b] ∨ l = [a, c] ∨ l = [b, c] ∨ l = [a, b, c] := by
  cases h with
  | cons _ h1 =>
    cases h1 with
    | cons _ h2 =>
      cases h2 with
      | cons _ h3 => cases h3; tauto
      | cons₂ _ h3 => cases h3; tauto
    | cons₂ _ h2 =>
      cases h2 with
      | cons _ h3 => cases h3; tauto
      | cons₂ _ h3 => cases h3; tauto
  | cons₂ _ h1 =>
    cases h1 with
    | cons _ h2 =>
      cases h2 with
      | cons _ h3 => cases h3; tauto
      | cons₂ _ h3 => cases h3; tauto
    | cons₂ _ h2 =>
      cases h2 with
      | cons _ h3 => cases h3; tauto
      | cons₂ _ h3 => cases h3; tauto

/-- For providers listed in the canonical dispatch order without
repetition, the dispatched task list is the providers list itself, so the
gathered responses line up with the `enumerate` indices. -/
theorem consensus_run_on_canonical_order (providers : List String)
    (respond : String → AIResponse) (synthesize : String → AIResponse)
    (h : List.Sublist providers ["gemini", "openai", "anthropic"]) :
    ai_consensus_run providers respond synthesize =
      some ⟨providers.map (fun p => (p, respond p)),
            (synthesize (consensus_prompt (providers.map (fun p => (p, respond p))))).content,
            "Processed with " ++ toString providers.length ++ " AI providers"⟩ := by
  rcases sublist_of_three h with rfl | rfl | rfl | rfl | rfl | rfl | rfl | rfl <;> rfl

/-- Every labeled entry of the results dict appears verbatim inside the
synthesis prompt built from it. -/
theorem chunk_infix_of_mem (results : List (String × AIResponse))
    (p : String) (r : AIResponse) (h : (p, r) ∈ results) :
    (provider_label_chunk p r).data <:+: (consensus_prompt results).data := by
  have hblocks : (provider_label_chunk p r).data <:+: (consensus_prompt_blocks results).data := by
    induction results with
    | nil => cases h
    | cons head rest ih =>
      obtain ⟨q, rr⟩ := head
      rcases List.mem_cons.mp h with heq | hmem
      · obtain ⟨hp, hr⟩ := Prod.mk.injEq .. ▸ heq
        subst hp
        subst hr
        exact ⟨[], (consensus_prompt_blocks rest).data,
          by simp [consensus_prompt_blocks, String.data_append]⟩
      · obtain ⟨s, t, hst⟩ := ih hmem
        exact ⟨(provider_label_chunk q rr).data ++ s, t,
          by simp [consensus_prompt_blocks, String.data_append, ← hst]⟩
  obtain ⟨s, t, hst⟩ := hblocks
  refine ⟨("Based on these AI responses, create a consensus summary:\n\n").data ++ s,
    t ++ ("Create a balanced consensus that incorporates the best insights from all responses.").data,
    ?_⟩
  simp [consensus_prompt, String.data_append, ← hst]

/-- The providers list of the C6 counterexample: the two requested
providers listed in the opposite of the dispatch order. -/
def swapped_providers : List String := ["openai", "gemini"]

/-- Distinct, provider-labeled step responses for the counterexample. -/
def tagged_response (provider : String) : AIResponse :=
  ⟨provider ++ " step output", provider⟩

/-- A synthesis step that just records the prompt it received. -/
def stub_synthesizer (prompt : String) : AIResponse :=
  ⟨prompt, "synth"⟩

/-- C6 (counterexample): requesting the providers as `openai, gemini` makes
the workflow pair the `openai` key with the response produced by the gemini
step (tasks are dispatched in the fixed gemini-first order but zipped
against the input order), so the results mapping does not hold the response
produced by that same provider's step. -/
theorem consensus_swapped_order_misattributes :
    (ai_consensus_run swapped_providers tagged_response stub_synthesizer).map
        (fun r => dict_lookup r.results "openai") =
      some (some (tagged_response "gemini")) ∧
    tagged_response "gemini" ≠ tagged_response "openai" :=
  ⟨rfl, by decide⟩

/-- C6 (amended): for every providers list that requests a subset of the
supported providers in the canonical gemini, openai, anthropic dispatch
order (each at most once), the results mapping has exactly one entry per
requested provider, keyed by that provider's name and holding that same
provider's response, and the synthesis step's prompt contains every
labeled provider output. -/
theorem consensus_attribution_in_canonical_order (providers : List String)
    (respond : String → AIResponse) (synthesize : String → AIResponse)
    (h : List.Sublist providers ["gemini", "openai", "anthropic"]) :
    ai_consensus_run providers respond synthesize =
      some ⟨providers.map (fun p => (p, respond p)),
            (synthesize (consensus_prompt (providers.map (fun p => (p, respond p))))).content,
            "Processed with " ++ toString providers.length ++ " AI providers"⟩ ∧
    ∀ p ∈ providers,
      (provider_label_chunk p (respond p)).data <:+:
        (consensus_prompt (providers.map (fun q => (q, respond q)))).data := by
  refine ⟨consensus_run_on_canonical_order providers respond synthesize h, fun p hp => ?_⟩
  exact chunk_infix_of_mem _ p (respond p) (List.mem_map_of_mem _ hp)

/-- Witness for the amended consensus attribution at the full
three-provider request. -/
theorem consensus_attribution_witness :
    ai_consensus_run ["gemini", "openai", "anthropic"] (fun p => ⟨p, p⟩)
        (fun prompt => ⟨prompt, "m"⟩) =
      some ⟨["gemini", "openai", "anthropic"].map (fun p => ((p : String), (⟨p, p⟩ : AIResponse))),
            ((fun prompt => (⟨prompt, "m"⟩ : AIResponse))
              (consensus_prompt (["gemini", "openai", "anthropic"].map
                (fun p => ((p : String), (⟨p, p⟩ : AIResponse)))))).content,
            "Processed with " ++ toString (["gemini", "openai", "anthropic"] : List String).length ++
              " AI providers"⟩ ∧
    ∀ p ∈ (["gemini", "openai", "anthropic"] : List String),
      (provider_label_chunk p ⟨p, p⟩).data <:+:
        (consensus_prompt (["gemini", "openai", "anthropic"].map
          (fun q => ((q : String), (⟨q, q⟩ : AIResponse))))).data :=
  consensus_attribution_in_canonical_order ["gemini", "openai", "anthropic"]
    (fun p => ⟨p, p⟩) (fun prompt => ⟨prompt, "m"⟩) (List.Sublist.refl _)

/-- Backoff delays never exceed the policy's maximum interval. -/
theorem next_delay_le_max (policy : RetryPolicy) (attempt : Nat) :
    next_delay policy attempt ≤ policy.maximum_interval :=
  min_le_right _ _

/-- The backoff schedule is monotonically non-decreasing in the attempt
number. -/
theorem next_delay_mono (policy : RetryPolicy) {a b : Nat} (h : a ≤ b) :
    next_delay policy a ≤ next_delay policy b := by
  unfold next_delay
  exact min_le_min
    (Nat.mul_le_mul_left _ (Nat.pow_le_pow_right (by norm_num) (by omega))) (le_refl _)

/-- C4: an error whose kind is listed in the step's non-retryable kinds
makes the engine run exactly one attempt and fail immediately, with no
backoff wait; and the workflow steps do list file-not-found (for the
document-processing step) and the invalid-configuration ValueError (for
both steps) as non-retryable. -/
theorem non_retryable_error_fails_after_one_attempt (policy : RetryPolicy)
    (outcomes : Nat → AttemptOutcome) (kind : String)
    (hmax : 1 ≤ policy.maximum_attempts)
    (h0 : outcomes 0 = .err kind)
    (hkind : kind ∈ policy.non_retryable_error_types) :
    run_retry policy outcomes = ⟨1, [], .failedNonRetryable kind⟩ ∧
    "FileNotFoundError" ∈ doc_intelligence_retry_policy.non_retryable_error_types ∧
    "ValueError" ∈ doc_intelligence_retry_policy.non_retryable_error_types ∧
    "ValueError" ∈ summary_retry_policy.non_retryable_error_types := by
  refine ⟨?_, by decide, by decide, by decide⟩
  obtain ⟨k, hk⟩ : ∃ k, policy.maximum_attempts = k + 1 :=
    ⟨policy.maximum_attempts - 1, by omega⟩
  rw [run_retry, hk]
  simp [run_from, h0, hkind]

/-- Witness for the single-attempt failure on a non-retryable kind: a
file-not-found error under the document-processing step's policy. -/
theorem non_retryable_error_fails_after_one_attempt_witness :
    run_retry doc_intelligence_retry_policy (fun _ => .err "FileNotFoundError") =
      ⟨1, [], .failedNonRetryable "FileNotFoundError"⟩ :=
  (non_retryable_error_fails_after_one_attempt doc_intelligence_retry_policy
    (fun _ => .err "FileNotFoundError") "FileNotFoundError" (by decide) rfl (by decide)).1

/-- Attempt count and delay trace of the retry loop when the first `m`
attempts fail retryably and attempt `m` (zero-based) succeeds if it is
still allowed to run. -/
theorem run_from_first_success (policy : RetryPolicy) (outcomes : Nat → AttemptOutcome) :
    ∀ fuel i m, 1 ≤ fuel →
    (∀ j, j < m → ∃ s, outcomes (i + j) = .err s ∧ s ∉ policy.non_retryable_error_types) →
    (m < fuel → outcomes (i + m) = .ok) →
    (run_from policy outcomes i fuel).attempts = min (m + 1) fuel ∧
    (run_from policy outcomes i fuel).delays =
      (List.range (min m (fuel - 1))).map (fun t => next_delay policy (i + t + 1)) := by
  intro fuel
  induction fuel with
  | zero => intro i m h1 _ _; omega
  | succ f ih =>
    intro i m _ hretry hsucc
    cases m with
    | zero =>
      have h0 : outcomes i = .ok := by simpa using hsucc (by omega)
      simp [run_from, h0]
    | succ m' =>
      obtain ⟨s0, hs0, hr0⟩ := hretry 0 (by omega)
      rw [Nat.add_zero] at hs0
      by_cases hf : f = 0
      · subst hf
        simp [run_from, hs0, hr0]
      · have ihh := ih (i + 1) m' (by omega)
          (fun j hj => by
            obtain ⟨s, hs, hr⟩ := hretry (j + 1) (by omega)
            refine ⟨s, ?_, hr⟩
            have e : i + (j + 1) = i + 1 + j := by omega
            rw [e] at hs
            exact hs)
          (fun hm => by
            have hh := hsucc (by omega)
            have e : i + (m' + 1) = i + 1 + m' := by omega
            rw [e] at hh
            exact hh)
        refine ⟨?_, ?_⟩
        · simp only [run_from, hs0]
          rw [if_neg hr0, if_neg hf]
          simp only [ihh.1]
          omega
        · simp only [run_from, hs0]
          rw [if_neg hr0, if_neg hf]
          simp only [ihh.2]
          have hmineq : min (m' + 1) (f + 1 - 1) = min m' (f - 1) + 1 := by omega
          rw [hmineq, List.range_succ_eq_map, List.map_cons, List.map_map]
          refine congrArg₂ _ (by rw [Nat.add_zero]) ?_
          refine List.map_congr_left (fun t _ => ?_)
          simp only [Function.comp]
          refine congrArg _ (by omega)

/-- C5: under the retry policies configured in the workflows (three maximum
attempts, initial interval at most the maximum interval), if every error in
the attempt sequence is retryable and the first success, when one occurs
within the budget, is at zero-based attempt `k`, then the engine runs
exactly `min (k + 1) maximum_attempts` attempts and the delays between
consecutive attempts are non-decreasing and never exceed the policy's
maximum interval. -/
theorem retry_attempt_count_and_monotone_backoff (policy : RetryPolicy)
    (outcomes : Nat → AttemptOutcome) (k : Nat)
    (hpolicy : policy = doc_intelligence_retry_policy ∨ policy = summary_retry_policy ∨
      policy = ocr_retry_policy)
    (hretry : ∀ j, j < k → ∃ s, outcomes j = .err s ∧ s ∉ policy.non_retryable_error_types)
    (hsucc : k < policy.maximum_attempts → outcomes k = .ok) :
    (run_retry policy outcomes).attempts = min (k + 1) policy.maximum_attempts ∧
    List.Chain' (· ≤ ·) (run_retry policy outcomes).delays ∧
    ∀ d ∈ (run_retry policy outcomes).delays, d ≤ policy.maximum_interval := by
  have hmax : 1 ≤ policy.maximum_attempts := by
    rcases hpolicy with h | h | h <;> subst h <;> decide
  have hrun := run_from_first_success policy outcomes policy.maximum_attempts 0 k hmax
    (by simpa using hretry) (by simpa using hsucc)
  rw [run_retry]
  refine ⟨hrun.1, ?_, ?_⟩
  · rw [hrun.2]
    refine List.Pairwise.chain' (List.pairwise_map.mpr ?_)
    exact (List.pairwise_lt_range _).imp (fun h => next_delay_mono policy (by omega))
  · rw [hrun.2]
    intro d hd
    obtain ⟨t, _, rfl⟩ := List.mem_map.mp hd
    exact next_delay_le_max policy _

/-- Witness for the retry count and backoff claim: under the summarization
policy, one retryable timeout and then success gives two attempts with the
single fifteen-second delay. -/
theorem retry_attempt_count_and_monotone_backoff_witness :
    (run_retry summary_retry_policy
        (fun j => if j = 0 then .err "TimeoutError" else .ok)).attempts =
      min (1 + 1) summary_retry_policy.maximum_attempts ∧
    List.Chain' (· ≤ ·) (run_retry summary_retry_policy
        (fun j => if j = 0 then .err "TimeoutError" else .ok)).delays ∧
    ∀ d ∈ (run_retry summary_retry_policy
        (fun j => if j = 0 then .err "TimeoutError" else .ok)).delays,
      d ≤ summary_retry_policy.maximum_interval :=
  retry_attempt_count_and_monotone_backoff summary_retry_policy
    (fun j => if j = 0 then .err "TimeoutError" else .ok) 1
    (Or.inr (Or.inl rfl))
    (fun j hj => ⟨"TimeoutError", by simp [show j = 0 by omega], by decide⟩)
    (fun _ => by simp)

/-- C10: the confidence of the Document Intelligence result is the
arithmetic mean of the collected per-line confidences — exactly zero when
none are present — and therefore lies within the unit interval whenever
every reported per-line confidence does. -/
theorem confidence_is_bounded_mean (result : AnalyzeResult)
    (h : ∀ c ∈ collect_confidences result.pages, 0 ≤ c ∧ c ≤ 1) :
    0 ≤ (process_document result).confidence ∧
    (process_document result).confidence ≤ 1 ∧
    (collect_confidences result.pages = [] → (process_document result).confidence = 0) ∧
    (collect_confidences result.pages ≠ [] →
      (process_document result).confidence * (collect_confidences result.pages).length =
        (collect_confidences result.pages).sum) := by
  have hconf : (process_document result).confidence =
      average_confidence (collect_confidences result.pages) := rfl
  by_cases hempty : collect_confidences result.pages = []
  · rw [hconf, average_confidence, if_pos (List.isEmpty_iff.mpr hempty)]
    exact ⟨le_refl 0, by norm_num, fun _ => rfl, fun hne => absurd hempty hne⟩
  · have hlen : 0 < ((collect_confidences result.pages).length : ℚ) := by
      have := List.length_pos.mpr hempty
      exact_mod_cast this
    have hsum0 : 0 ≤ (collect_confidences result.pages).sum :=
      List.sum_nonneg (fun c hc => (h c hc).1)
    have hsum1 : (collect_confidences result.pages).sum ≤
        ((collect_confidences result.pages).length : ℚ) := by
      have hb := List.sum_le_card_nsmul (collect_confidences result.pages) 1
        (fun c hc => (h c hc).2)
      simpa using hb
    rw [hconf, average_confidence,
      if_neg (by simp [List.isEmpty_iff, hempty])]
    refine ⟨div_nonneg hsum0 hlen.le, (div_le_one hlen).mpr hsum1, fun hh => absurd hh hempty,
      fun _ => div_mul_cancel₀ _ (ne_of_gt hlen)⟩

/-- Witness for the confidence bound at a concrete analyze result with two
reported line confidences and one line without a reported confidence. -/
theorem confidence_is_bounded_mean_witness :
    0 ≤ (process_document ⟨none, [⟨[⟨some (1 / 2)⟩, ⟨none⟩, ⟨some 1⟩]⟩], [], []⟩).confidence ∧
    (process_document ⟨none, [⟨[⟨some (1 / 2)⟩, ⟨none⟩, ⟨some 1⟩]⟩], [], []⟩).confidence ≤ 1 ∧
    (collect_confidences [⟨[⟨some (1 / 2)⟩, ⟨none⟩, ⟨some 1⟩]⟩] = [] →
      (process_document ⟨none, [⟨[⟨some (1 / 2)⟩, ⟨none⟩, ⟨some 1⟩]⟩], [], []⟩).confidence = 0) ∧
    (collect_confidences [⟨[⟨some (1 / 2)⟩, ⟨none⟩, ⟨some 1⟩]⟩] ≠ [] →
      (process_document ⟨none, [⟨[⟨some (1 / 2)⟩, ⟨none⟩, ⟨some 1⟩]⟩], [], []⟩).confidence *
          (collect_confidences [⟨[⟨some (1 / 2)⟩, ⟨none⟩, ⟨some 1⟩]⟩]).length =
        (collect_confidences [⟨[⟨some (1 / 2)⟩, ⟨none⟩, ⟨some 1⟩]⟩]).sum) :=
  confidence_is_bounded_mean ⟨none, [⟨[⟨some (1 / 2)⟩, ⟨none⟩, ⟨some 1⟩]⟩], [], []⟩
    (by intro c hc; simp [collect_confidences] at hc; rcases hc with h | h <;> subst h <;> norm_num)
